import Mathlib

/-!
Verification development for the speech-to-text sidecar
(`src/python-stt`): a shallow embedding of the VAD state machine, the
audio pipeline, the resource monitor, the Whisper engine facade and the
IPC dispatcher, with theorems checking the natural-language
specification against the code.

Modelling conventions:
* bytes are `Nat`, audio buffers and frames are `List Nat`;
* the external frame classifier (`webrtcvad.is_speech`) is an input
  `Bool` per frame;
* wall-clock readings (`time.time()`), CPU percentages and memory
  readings are rationals supplied as inputs per tick;
* the faster-whisper backend (`WhisperModel`, `model.transcribe`) and
  filesystem model discovery are oracles: their outcomes are parameters
  enumerating the outcomes the Python code distinguishes.
-/

/-- Whisper model sizes (`ModelSize` in `whisper_client.py`,
`MODEL_SEQUENCE` in `resource_monitor.py`). -/
inductive Model where
  | tiny
  | base
  | small
  | medium
  | largeV3
deriving DecidableEq, Repr

/-- Index of a model in `ResourceMonitor.MODEL_SEQUENCE =
['large-v3', 'medium', 'small', 'base', 'tiny']` (largest first). -/
def seqIdx : Model → Nat
  | .largeV3 => 0
  | .medium => 1
  | .small => 2
  | .base => 3
  | .tiny => 4

/-- Model at a given `MODEL_SEQUENCE` index (defaulting like the
Python list would never be read out of range on the paths we model). -/
def seqModel : Nat → Model
  | 0 => .largeV3
  | 1 => .medium
  | 2 => .small
  | 3 => .base
  | _ => .tiny

/-- Size order on models: `a ≼ b` iff `a` is not a larger model than
`b`, in the order `large-v3 > medium > small > base > tiny` (§3 of the
spec).  A smaller `seqIdx` means a larger model. -/
def modelLe (a b : Model) : Bool := seqIdx b ≤ seqIdx a

/-- `ResourceMonitor.get_downgrade_target`: next model in the downgrade
sequence, `none` when already at `tiny`. -/
def getDowngradeTarget (currentModel : Model) : Option Model :=
  let i := seqIdx currentModel
  if i < 4 then some (seqModel (i + 1)) else none

/-- `ResourceMonitor.get_upgrade_target`: next larger model, bounded by
`initial_model` when that is set; `none` at `large-v3` or when the step
would exceed `initial_model`. -/
def getUpgradeTarget (initialModel : Option Model) (currentModel : Model) :
    Option Model :=
  let i := seqIdx currentModel
  if i > 0 then
    let target := seqModel (i - 1)
    match initialModel with
    | some ini => if i - 1 < seqIdx ini then none else some target
    | none => some target
  else none

/-! ### `VoiceActivityDetector.split_into_frames` (C8) -/

/-- Bytes per 10 ms frame: `16000 Hz * 10 ms / 1000 * 2 bytes`. -/
def bytesPerFrame : Nat := 320

/-- `VoiceActivityDetector.split_into_frames`: partition a byte buffer
into complete 320-byte frames, discarding any trailing remainder. -/
def splitIntoFrames (audioData : List Nat) : List (List Nat) :=
  if h : bytesPerFrame ≤ audioData.length then
    audioData.take bytesPerFrame :: splitIntoFrames (audioData.drop bytesPerFrame)
  else
    []
termination_by audioData.length
decreasing_by
  simp only [List.length_drop, bytesPerFrame] at *
  omega

/-- Mutable per-detector state of `VoiceActivityDetector`
(`voice_activity_detector.py`, `__init__`). -/
structure VadState where
  is_in_speech : Bool
  speech_frames : Nat
  silence_frames : Nat
  current_segment : List (List Nat)
deriving DecidableEq, Repr

/-- Initial VAD state (`__init__`). -/
def VadState.init : VadState :=
  { is_in_speech := false, speech_frames := 0, silence_frames := 0,
    current_segment := [] }

/-- `speech_onset_threshold = 30` (0.3 s). -/
def speechOnsetThreshold : Nat := 30

/-- `speech_offset_threshold = 50` (0.5 s). -/
def speechOffsetThreshold : Nat := 50

/-- `frame_duration_ms = 10`. -/
def frameDurationMs : Nat := 10

/-- Events returned by `VoiceActivityDetector.process_frame`.  The
source returns `{'event': 'speech_start'}` with no other keys, and
`{'event': 'speech_end', 'segment': {'audio_data': ..., 'duration_ms':
...}}`; the constructors mirror exactly those payloads. -/
inductive VadEvent where
  | speechStart
  | speechEnd (audio_data : List Nat) (duration_ms : Nat)
deriving DecidableEq, Repr

/-- `VoiceActivityDetector.process_frame`.  The webrtcvad verdict for
the frame (`self.is_speech(frame)`) is the input `isSpeechFrame`. -/
def processFrame (s : VadState) (frame : List Nat) (isSpeechFrame : Bool) :
    VadState × Option VadEvent :=
  -- "Always accumulate frames during active speech"
  let seg := if s.is_in_speech then s.current_segment ++ [frame]
             else s.current_segment
  if !s.is_in_speech then
    if isSpeechFrame then
      let sf := s.speech_frames + 1
      if speechOnsetThreshold ≤ sf then
        -- onset: start a NEW segment holding only the triggering frame
        ({ is_in_speech := true, speech_frames := sf, silence_frames := 0,
           current_segment := [frame] }, some .speechStart)
      else
        ({ s with speech_frames := sf, silence_frames := 0 }, none)
    else
      ({ s with speech_frames := 0 }, none)
  else
    if !isSpeechFrame then
      let sil := s.silence_frames + 1
      if speechOffsetThreshold ≤ sil then
        (VadState.init,
         some (.speechEnd seg.flatten (seg.length * frameDurationMs)))
      else
        ({ s with
            silence_frames := sil
            speech_frames := 0
            current_segment := seg }, none)
    else
      ({ s with
          silence_frames := 0
          speech_frames := s.speech_frames + 1
          current_segment := seg }, none)

/-- Run the VAD over a list of `(frame, webrtcvad verdict)` pairs,
collecting the emitted events. -/
def vadRun (s : VadState) : List (List Nat × Bool) → VadState × List VadEvent
  | [] => (s, [])
  | (fr, b) :: rest =>
    let r := processFrame s fr b
    let r2 := vadRun r.1 rest
    (r2.1, r.2.toList ++ r2.2)

/-- Mutable state of `AudioPipeline` relevant to partial scheduling:
`_current_speech_buffer`, `_speech_start_time`, `_last_partial_time`,
`_frame_count_since_partial`, plus the owned VAD. -/
structure PipelineState where
  vad : VadState
  speech_buffer : List Nat
  speech_start_time : Option Nat
  last_partial_time : Option Nat
  frames_since_partial_text : Nat
deriving DecidableEq, Repr

/-- Initial pipeline state (`AudioPipeline.__init__`). -/
def PipelineState.init : PipelineState :=
  { vad := VadState.init, speech_buffer := [], speech_start_time := none,
    last_partial_time := none, frames_since_partial_text := 0 }

/-- `partial_interval_frames = 100` (1 s at 10 ms frames). -/
def partialIntervalFrames : Nat := 100

/-- First-partial early-trigger threshold (Task 11.2): 10 frames. -/
def firstPartialTextFrames : Nat := 10

/-- Events returned by
`AudioPipeline.process_audio_frame_with_partial`.  `partialText` and
`finalText` carry the audio handed to `stt_engine.transcribe` (the
transcription value itself is the backend's; see `transcribe` below).
`pipelineError` is the `{'event': 'error', ...}` dict produced when a
final transcription raises. -/
inductive PipeEvent where
  | speechStart (timestamp : Nat)
  | partialText (audio_data : List Nat)
  | finalText (audio_data : List Nat) (duration_ms : Nat)
  | speechEnd (audio_data : List Nat) (duration_ms : Nat)
  | pipelineError (message : String)
deriving DecidableEq, Repr

/-- `AudioPipeline._should_generate_partial`, returning the trigger
decision together with the (possibly reset) frame counter, since the
Python method mutates `_frame_count_since_partial` in place. -/
def shouldGeneratePartialText (speech_start_time last_partial_time : Option Nat)
    (count : Nat) : Bool × Nat :=
  match speech_start_time with
  | none => (false, count)
  | some _ =>
    match last_partial_time with
    | none =>
      if firstPartialTextFrames ≤ count then (true, 0) else (false, count)
    | some _ =>
      if partialIntervalFrames ≤ count then (true, 0) else (false, count)

/-- The VAD-event branch of `process_audio_frame_with_partial`
(`_handle_speech_start` / `_handle_speech_end`).  The real VAD supplies
no `pre_roll` key, so `vad_result.get('pre_roll')` is always `None` and
the speech buffer is reset to empty on `speech_start`.  The STT engine
is present and its `transcribe` is total (cf. `transcribe` below), so
`_handle_speech_end` always produces `final_text` for a non-empty
segment, and the exception branch (`pipelineError`) is unreachable. -/
def handleVadEvent (s : PipelineState) (ev : Option VadEvent) (now : Nat) :
    PipelineState × Option PipeEvent :=
  match ev with
  | none => (s, none)
  | some .speechStart =>
    ({ s with
        speech_buffer := []
        speech_start_time := some now
        last_partial_time := none
        frames_since_partial_text := 0 }, some (.speechStart now))
  | some (.speechEnd audio dur) =>
    if audio = [] then (s, none)
    else
      ({ s with
          speech_buffer := []
          speech_start_time := none
          last_partial_time := none }, some (.finalText audio dur))

/-- `AudioPipeline.process_audio_frame_with_partial`: VAD first, then
(while in speech) buffer accumulation, frame counting and the partial
trigger — which, when it fires, returns immediately (dropping any VAD
event of the same frame, exactly as the early `return` in the source
does) — then VAD event handling. -/
def pipelineStep (s : PipelineState) (frame : List Nat) (isSpeechFrame : Bool)
    (now : Nat) : PipelineState × Option PipeEvent :=
  let vr := processFrame s.vad frame isSpeechFrame
  if vr.1.is_in_speech then
    let buf := s.speech_buffer ++ frame
    let cnt := s.frames_since_partial_text + 1
    let tg := shouldGeneratePartialText s.speech_start_time s.last_partial_time cnt
    if tg.1 then
      -- `_generate_partial_transcription`: `None` on an empty buffer
      if buf = [] then
        ({ s with
            vad := vr.1
            speech_buffer := buf
            frames_since_partial_text := tg.2 }, none)
      else
        ({ s with
            vad := vr.1
            speech_buffer := buf
            frames_since_partial_text := tg.2
            last_partial_time := some now }, some (.partialText buf))
    else
      handleVadEvent
        { s with
            vad := vr.1
            speech_buffer := buf
            frames_since_partial_text := tg.2 } vr.2 now
  else
    handleVadEvent { s with vad := vr.1 } vr.2 now

/-- Pipeline state after feeding `m` frames `f 0, …, f (m-1)`, all
classified as speech, to a fresh pipeline; `nowf i` is the wall clock
observed while handling frame `i` (spec §8, scenario S2). -/
def allSpeechRun (f : Nat → List Nat) (nowf : Nat → Nat) : Nat → PipelineState
  | 0 => PipelineState.init
  | m + 1 => (pipelineStep (allSpeechRun f nowf m) (f m) true (nowf m)).1

/-- The event emitted while handling frame `m` of the all-speech
stream. -/
def allSpeechEvent (f : Nat → List Nat) (nowf : Nat → Nat) (m : Nat) :
    Option PipeEvent :=
  (pipelineStep (allSpeechRun f nowf m) (f m) true (nowf m)).2

/-- Closed form of `allSpeechRun` (proved below): onset accumulation
for the first 29 frames, onset at frame 29, thereafter the partial
counter cycles with period 100 after the first trigger at frame 39. -/
def allSpeechState (f : Nat → List Nat) (nowf : Nat → Nat) (m : Nat) :
    PipelineState :=
  if m ≤ 29 then
    { vad := { is_in_speech := false, speech_frames := m, silence_frames := 0,
               current_segment := [] },
      speech_buffer := [], speech_start_time := none,
      last_partial_time := none, frames_since_partial_text := 0 }
  else
    { vad := { is_in_speech := true, speech_frames := m, silence_frames := 0,
               current_segment := (List.range' 29 (m - 29)).map f },
      speech_buffer := ((List.range' 30 (m - 30)).map f).flatten,
      speech_start_time := some (nowf 29),
      last_partial_time :=
        if m ≤ 39 then none else some (nowf (39 + 100 * ((m - 40) / 100))),
      frames_since_partial_text := if m ≤ 39 then m - 30 else (m - 40) % 100 }

/-- Closed form of `allSpeechEvent` (proved below): `speech_start` on
frame 29 (the 30th frame), `partial_text` on frames 39, 139, 239, …
(the 10th in-speech frame after onset, then every 100 further
in-speech frames), nothing otherwise. -/
def allSpeechEventSpec (f : Nat → List Nat) (nowf : Nat → Nat) (m : Nat) :
    Option PipeEvent :=
  if m < 29 then none
  else if m = 29 then some (.speechStart (nowf 29))
  else if 39 ≤ m ∧ (m - 39) % 100 = 0 then
    some (.partialText (((List.range' 30 (m + 1 - 30)).map f).flatten))
  else none

/-- `ResourceMonitor.monitoring_state`:
`"monitoring" | "degraded" | "recovering"`. -/
inductive MState where
  | monitoring
  | degraded
  | recovering
deriving DecidableEq, Repr

/-- Index of a model in the ascending list
`['tiny', 'base', 'small', 'medium', 'large-v3']` used by the upgrade
target selection inside `_monitor_cycle`. -/
def upIdx : Model → Nat
  | .tiny => 0
  | .base => 1
  | .small => 2
  | .medium => 3
  | .largeV3 => 4

/-- Mutable state of `ResourceMonitor` (`__init__`).  Wall-clock
seconds, CPU percentages and memory gigabytes are rationals. -/
structure MonState where
  current_model : Model
  initial_model : Option Model
  cpu_high_start_time : Option ℚ
  low_resource_start_time : Option ℚ
  cpu_samples : List ℚ
  recovery_sample_count : Nat
  last_downgrade_timestamp : ℚ
  monitoring_state : MState
deriving DecidableEq, Repr

/-- `ResourceMonitor._update_state_machine`.  The `cpu_samples` deque
has `maxlen=2`, so appending keeps only the last two samples. -/
def updateStateMachine (s : MonState) (cpu_usage memory_available_gb : ℚ) :
    MonState :=
  let cs0 := s.cpu_samples ++ [cpu_usage]
  let cs := cs0.drop (cs0.length - 2)
  match s.monitoring_state with
  | .monitoring => { s with cpu_samples := cs }
  | .degraded =>
    if cpu_usage < 50 ∧ 2 ≤ memory_available_gb then
      let rc := s.recovery_sample_count + 1
      if 10 ≤ rc then
        { s with
            cpu_samples := cs
            recovery_sample_count := rc
            monitoring_state := .recovering }
      else
        { s with cpu_samples := cs, recovery_sample_count := rc }
    else
      { s with cpu_samples := cs, recovery_sample_count := 0 }
  | .recovering => { s with cpu_samples := cs }

/-- `ResourceMonitor.should_downgrade_memory`: `(should, target)` with
`target = some base` at the 2.0 GB critical threshold, `none` (gradual)
at 1.5 GB. -/
def shouldDowngradeMemory (memory_gb : ℚ) : Bool × Option Model :=
  if 2 ≤ memory_gb then (true, some .base)
  else if 3/2 ≤ memory_gb then (true, none)
  else (false, none)

/-- `ResourceMonitor._should_debounce_downgrade`: skip a downgrade if
fewer than 60 s have elapsed since `last_downgrade_timestamp`.  (The
source re-reads `time.time()` here; within one cycle we use the same
`now` as `_monitor_cycle`.) -/
def shouldDebounceDowngrade (now last_downgrade_timestamp : ℚ) : Bool :=
  now - last_downgrade_timestamp < 60

/-- `ResourceMonitor.should_pause_recording`. -/
def shouldPauseRecording (current_model : Model) (memory_gb cpu_percent : ℚ) :
    Bool :=
  if current_model ≠ .tiny then false
  else if 2 ≤ memory_gb then true
  else if 85 ≤ cpu_percent then true
  else false

/-- Which downgrade rule fired, matching the three call sites of
`on_downgrade` in `_monitor_cycle`. -/
inductive DownReason where
  | memCritical
  | memGradual
  | cpuSustained
deriving DecidableEq, Repr

/-- Callback invocations performed during one `_monitor_cycle`:
`on_downgrade`, `on_upgrade_proposal`, `on_pause_recording`. -/
inductive MonEvent where
  | downgrade (reason : DownReason) (old_model new_model : Model)
  | upgradeProposal (current_model proposed_model : Model)
  | recordingPaused
deriving DecidableEq, Repr

/-- The downgrade portion of `_monitor_cycle` (memory check, then the
`elif` CPU-sustained check).  `load` is the outcome of the
`on_downgrade` callback, which loads the model via the engine and — on
success — updates `current_model` to the actual loaded size before the
monitor stamps `last_downgrade_timestamp`, enters `degraded` and
clears the recovery counter.  A callback exception aborts the rest of
the cycle (third component `true`); the mutations already made stand
and `current_model` is untouched. -/
def monitorDowngradePhase (s : MonState) (app_mem now : ℚ)
    (load : Except Unit Model) : MonState × List MonEvent × Bool :=
  match shouldDowngradeMemory app_mem with
  | (true, target) =>
    if s.current_model = .tiny then (s, [], false)
    else
      match target with
      | some tm =>
        -- critical: immediate downgrade to base (tm = base)
        if s.current_model = tm then (s, [], false)
        else
          (match load with
           | .ok actual =>
             ({ s with
                 current_model := actual
                 last_downgrade_timestamp := now
                 monitoring_state := .degraded
                 recovery_sample_count := 0
                 cpu_high_start_time := none },
              [.downgrade .memCritical s.current_model tm], false)
           | .error _ => (s, [.downgrade .memCritical s.current_model tm], true))
      | none =>
        -- gradual: one step along the model order
        match getDowngradeTarget s.current_model with
        | some nm =>
          (match load with
           | .ok actual =>
             ({ s with
                 current_model := actual
                 last_downgrade_timestamp := now
                 monitoring_state := .degraded
                 recovery_sample_count := 0
                 cpu_high_start_time := none },
              [.downgrade .memGradual s.current_model nm], false)
           | .error _ => (s, [.downgrade .memGradual s.current_model nm], true))
        | none => ({ s with cpu_high_start_time := none }, [], false)
  | (false, _) =>
    match s.cpu_high_start_time with
    | some t0 =>
      if 60 ≤ now - t0 then
        if shouldDebounceDowngrade now s.last_downgrade_timestamp then
          -- debounced: the CPU timer is NOT reset
          (s, [], false)
        else
          match getDowngradeTarget s.current_model with
          | some nm =>
            (match load with
             | .ok actual =>
               ({ s with
                   current_model := actual
                   last_downgrade_timestamp := now
                   monitoring_state := .degraded
                   recovery_sample_count := 0
                   cpu_high_start_time := none },
                [.downgrade .cpuSustained s.current_model nm], false)
             | .error _ =>
               (s, [.downgrade .cpuSustained s.current_model nm], true))
          | none => ({ s with cpu_high_start_time := none }, [], false)
      else (s, [], false)
    | none => (s, [], false)

/-- The upgrade-proposal portion of `_monitor_cycle`: driven by the
`low_resource_start_time` wall-clock timer (≥ 300 s), proposing
`initial_model` directly when it is strictly larger than
`current_model`, else falling back to `get_upgrade_target`; after a
proposal the state returns to `monitoring` and the recovery counter is
cleared; the timer is reset in every matured case. -/
def monitorProposalPhase (s : MonState) (now : ℚ) : MonState × List MonEvent :=
  match s.low_resource_start_time with
  | some t1 =>
    if 300 ≤ now - t1 then
      let target0 : Option Model :=
        match s.initial_model with
        | some ini =>
          if ini ≠ s.current_model ∧ upIdx s.current_model < upIdx ini then
            some ini
          else none
        | none => none
      let target :=
        match target0 with
        | some t => some t
        | none => getUpgradeTarget s.initial_model s.current_model
      match target with
      | some t =>
        ({ s with
            monitoring_state := .monitoring
            recovery_sample_count := 0
            low_resource_start_time := none },
         [.upgradeProposal s.current_model t])
      | none => ({ s with low_resource_start_time := none }, [])
    else (s, [])
  | none => (s, [])

/-- The CPU-high duration tracking of `_monitor_cycle`
(STT-REQ-006.7): start the timer when `cpu ≥ 85 %`, reset it when the
CPU drops below the threshold. -/
def trackCpuHigh (s : MonState) (cpu now : ℚ) : MonState :=
  if 85 ≤ cpu then
    match s.cpu_high_start_time with
    | none => { s with cpu_high_start_time := some now }
    | some _ => s
  else { s with cpu_high_start_time := none }

/-- The low-resource duration tracking of `_monitor_cycle`
(STT-REQ-006.10): the timer runs while app RSS < 0.5 GB and
cpu < 50 %. -/
def trackLowResource (s : MonState) (cpu app_mem now : ℚ) : MonState :=
  if app_mem < 1/2 ∧ cpu < 50 then
    match s.low_resource_start_time with
    | none => { s with low_resource_start_time := some now }
    | some _ => s
  else { s with low_resource_start_time := none }

/-- `ResourceMonitor._monitor_cycle`: state-machine update, CPU-high
and low-resource timer tracking, downgrade checks, upgrade proposal,
recording pause.  Inputs per tick: `cpu` (`psutil.cpu_percent`),
`app_mem` (process RSS in GB), `sys_avail` (system available memory in
GB), `now` (`time.time()`), and the `on_downgrade` outcome `load`. -/
def monitorCycle (s0 : MonState) (cpu app_mem sys_avail now : ℚ)
    (load : Except Unit Model) : MonState × List MonEvent × Bool :=
  let s1 := updateStateMachine s0 cpu sys_avail
  let s2 := trackCpuHigh s1 cpu now
  let s3 := trackLowResource s2 cpu app_mem now
  let d := monitorDowngradePhase s3 app_mem now load
  if d.2.2 then d
  else
    let p := monitorProposalPhase d.1 now
    let pauseEvents :=
      if p.1.current_model = .tiny ∧
          shouldPauseRecording .tiny app_mem cpu = true then
        [MonEvent.recordingPaused]
      else []
    (p.1, d.2.1 ++ p.2 ++ pauseEvents, false)

/-- Iterate `_monitor_cycle` over a list of ticks
`(cpu, app_mem, sys_avail, now, load)`, collecting all callback
invocations.  `start_monitoring` catches a cycle's exception and keeps
looping, so an aborted cycle does not stop the run. -/
def monitorRun (s : MonState) :
    List (ℚ × ℚ × ℚ × ℚ × Except Unit Model) → MonState × List MonEvent
  | [] => (s, [])
  | (cpu, app_mem, sys_avail, now, load) :: rest =>
    let r := monitorCycle s cpu app_mem sys_avail now load
    let r2 := monitorRun r.1 rest
    (r2.1, r.2.1 ++ r2.2)

/-- A monitor state in `degraded` after a downgrade from `small` to
`base` (`initial_model = small` is the upgrade ceiling). -/
def c2DegradedState : MonState :=
  ⟨.base, some .small, none, none, [], 0, 0, .degraded⟩

/-- Eleven monitor ticks `(cpu, rss, available, now, load)`, 30 s
apart, each observing cpu = 30 %, process RSS = 1 GB and 3 GB of
available system memory — every tick satisfies the recovery condition
`cpu < 50 ∧ available ≥ 2 GB`. -/
def c2Ticks : List (ℚ × ℚ × ℚ × ℚ × Except Unit Model) :=
  [(30, 1, 3, 30, .ok .base), (30, 1, 3, 60, .ok .base),
   (30, 1, 3, 90, .ok .base), (30, 1, 3, 120, .ok .base),
   (30, 1, 3, 150, .ok .base), (30, 1, 3, 180, .ok .base),
   (30, 1, 3, 210, .ok .base), (30, 1, 3, 240, .ok .base),
   (30, 1, 3, 270, .ok .base), (30, 1, 3, 300, .ok .base),
   (30, 1, 3, 330, .ok .base)]

/-- The lowercase size strings of `ModelSize`. -/
def modelName : Model → String
  | .tiny => "tiny"
  | .base => "base"
  | .small => "small"
  | .medium => "medium"
  | .largeV3 => "large-v3"

/-- The `(model, model_size, model_path)` triple of `WhisperSTTEngine`
that `load_model` snapshots and mutates; the loaded `WhisperModel`
instance is an abstract id. -/
structure EngineState where
  model : Option Nat
  model_size : Model
  model_path : String
deriving DecidableEq, Repr

/-- Outcome of `self._detect_model_path()` inside `load_model`:
`found path sizeAfter` (where `sizeAfter` may be `base` if
`_detect_bundled_model_path` fell back and updated `self.model_size`),
`FileNotFoundError`, or a network error
(`TimeoutError/ConnectionError/OSError`, after which `load_model`
falls back to the HuggingFace Hub model id string). -/
inductive DetectOutcome where
  | found (path : String) (sizeAfter : Model)
  | notFound
  | networkError
deriving DecidableEq, Repr

/-- `WhisperSTTEngine.load_model`.  `construct` is the outcome of
`WhisperModel(...)`: `some inst` on success, `none` when the
constructor raises.  Returns the new engine state, the result
(`ok actual_size` or the re-raised exception), and the model instance
released (`del old_model` happens only on the success path, after the
new model has been constructed). -/
def loadModel (s : EngineState) (new_model_size : Model)
    (detect : DetectOutcome) (construct : Option Nat) :
    EngineState × Except Unit Model × Option Nat :=
  -- Save current state for rollback (CRITICAL: before any modifications)
  let old_model := s.model
  let old_model_size := s.model_size
  let old_model_path := s.model_path
  match detect with
  | .notFound =>
    -- FileNotFoundError: rollback to the snapshot and re-raise
    (⟨old_model, old_model_size, old_model_path⟩, .error (), none)
  | .found path sizeAfter =>
    match construct with
    | some inst => (⟨some inst, sizeAfter, path⟩, .ok sizeAfter, old_model)
    | none => (⟨old_model, old_model_size, old_model_path⟩, .error (), none)
  | .networkError =>
    let path := "Systran/faster-whisper-" ++ modelName new_model_size
    match construct with
    | some inst =>
      (⟨some inst, new_model_size, path⟩, .ok new_model_size, old_model)
    | none => (⟨old_model, old_model_size, old_model_path⟩, .error (), none)

/-- The dict returned by `WhisperSTTEngine.transcribe`. -/
structure TranscriptionResult where
  text : String
  confidence : ℚ
  language : String
  is_final : Bool
  processing_time_ms : Nat
  error : Option String
deriving DecidableEq, Repr

/-- Python's `round(confidence, 3)` (modelled as round-half-up; the
only property used is that it maps `[0,1]` into `[0,1]`). -/
def roundConf3 (c : ℚ) : ℚ := ((⌊c * 1000 + 1/2⌋ : ℤ) : ℚ) / 1000

/-- `WhisperSTTEngine.transcribe`.  `modelLoaded` is whether
`self.model` is set; `backend` is the outcome of
`self.model.transcribe(...)` — an exception message, or the segment
list `(text, avg_logprob)` with the detected language; `expMean`
stands for the float `np.exp(avg_logprob)` (an oracle value: only the
clamp `min(1.0, max(0.0, ·))` matters to the claims); `procMs` is the
measured wall-clock processing time.  `np.frombuffer(·, dtype=int16)`
raises exactly when the byte count is odd. -/
def transcribe (modelLoaded : Bool) (audio_data : List Nat) (is_final : Bool)
    (backend : Except String (List (String × ℚ) × String)) (expMean : ℚ)
    (procMs : Nat) : Except String TranscriptionResult :=
  if !modelLoaded then
    .error "WhisperSTTEngine not initialized. Call initialize() first."
  else if audio_data.length = 0 then
    .ok ⟨"", 0, "ja", is_final, 0, some "INVALID_AUDIO"⟩
  else if audio_data.length % 2 ≠ 0 then
    .ok ⟨"", 0, "ja", is_final, procMs, some "INVALID_AUDIO"⟩
  else
    match backend with
    | .error e => .ok ⟨"", 0, "ja", is_final, procMs, some e⟩
    | .ok (segments, language) =>
      let full_text := (String.join (segments.map Prod.fst)).trim
      let confidence : ℚ :=
        if 0 < segments.length then min 1 (max 0 expMean) else 0
      .ok ⟨full_text, roundConf3 confidence, language, is_final, procMs, none⟩

/-- An outbound JSON message, flattened to the fields the protocol
claims discuss: the discriminator `type`, the top-level correlation
`id` (present on `response`/`error`/`pong`, absent on `event`), the
`eventType`, the `errorCode`/`recoverable` pair, and the
`data.requestId` that stream events carry.  Transcription payload
fields (text, confidence, …) are carried by the pipeline events above
and are not repeated here, since no claim refers to them on the
wire. -/
structure Outbound where
  type : String
  id : Option String
  eventType : Option String
  errorCode : Option String
  recoverable : Option Bool
  dataRequestId : Option String
deriving DecidableEq, Repr

/-- A `response{id, result}` message. -/
def mkResponse (id : String) : Outbound :=
  ⟨"response", some id, none, none, none, none⟩

/-- An `error{id, errorCode, errorMessage, recoverable}` message. -/
def mkError (id errorCode : String) (recoverable : Bool) : Outbound :=
  ⟨"error", some id, none, some errorCode, some recoverable, none⟩

/-- An `event{eventType, data}` message: no top-level id; stream
events carry `data.requestId`. -/
def mkEvent (eventType : String) (requestId : Option String) : Outbound :=
  ⟨"event", none, some eventType, none, none, requestId⟩

/-- A `pong{id}` message. -/
def mkPong (id : String) : Outbound :=
  ⟨"pong", some id, none, none, none, none⟩

/-- A parsed inbound message, restricted to the shapes
`AudioProcessor.handle_message` distinguishes (`request` with its
method and params, `ping`, `shutdown`, anything else). -/
inductive Inbound where
  | request (id : String) (method : String) (audio_data : List Nat)
      (target_model : Option Model)
  | ping (id : String)
  | shutdown
  | unknownType (id : String)
deriving DecidableEq, Repr

/-- The dispatcher state touched by `handle_message`: the audio
pipeline and `resource_monitor.current_model`. -/
structure AppState where
  pipe : PipelineState
  current_model : Model
deriving DecidableEq, Repr

/-- The IPC messages `_handle_process_audio_stream` sends for one
pipeline event (`main.py` lines 312–414): stream events carry
`data.requestId` and no top-level id; `final_text` is immediately
followed by a derived `speech_end`; a pipeline error becomes an
`error` with the request id and `AUDIO_PIPELINE_ERROR`. -/
def streamEventOutbound (msgId : String) : PipeEvent → List Outbound
  | .speechStart _ => [mkEvent "speech_start" (some msgId)]
  | .partialText _ => [mkEvent "partial_text" (some msgId)]
  | .finalText _ _ =>
    [mkEvent "final_text" (some msgId), mkEvent "speech_end" (some msgId)]
  | .speechEnd _ _ => [mkEvent "speech_end" (some msgId)]
  | .pipelineError _ => [mkError msgId "AUDIO_PIPELINE_ERROR" true]

/-- Run the pipeline over a frame list (frame `k` classified by
`cls k`, clock `nowf k`), keeping only the final state — the event
collection of `_handle_process_audio`, which logs events but sends
none of them. -/
def pipeRun (cls : Nat → Bool) (nowf : Nat → Nat) :
    PipelineState → List (List Nat) → Nat → PipelineState
  | ps, [], _ => ps
  | ps, fr :: rest, k =>
    pipeRun cls nowf (pipelineStep ps fr (cls k) (nowf k)).1 rest (k + 1)

/-- `AudioProcessor._handle_process_audio`: empty audio gets an empty
response; otherwise all frames are processed and a single `response`
(the final transcription, or an empty result) is sent — exactly one
response either way. -/
def handleProcessAudio (cls : Nat → Bool) (nowf : Nat → Nat)
    (st : PipelineState) (msgId : String) (audio_data : List Nat) :
    PipelineState × List Outbound :=
  if audio_data = [] then (st, [mkResponse msgId])
  else (pipeRun cls nowf st (splitIntoFrames audio_data) 0,
    [mkResponse msgId])

/-- The per-frame loop of `_handle_process_audio_stream`: each event
is sent immediately; an error event breaks the loop (third result
component: `speech_detected`). -/
def streamLoop (cls : Nat → Bool) (nowf : Nat → Nat) (msgId : String) :
    PipelineState → List (List Nat) → Nat → Bool →
    PipelineState × List Outbound × Bool
  | ps, [], _, speechDetected => (ps, [], speechDetected)
  | ps, fr :: rest, k, speechDetected =>
    let r := pipelineStep ps fr (cls k) (nowf k)
    match r.2 with
    | none => streamLoop cls nowf msgId r.1 rest (k + 1) speechDetected
    | some ev =>
      match ev with
      | .pipelineError m =>
        (r.1, streamEventOutbound msgId (.pipelineError m), true)
      | _ =>
        let r2 := streamLoop cls nowf msgId r.1 rest (k + 1) true
        (r2.1, streamEventOutbound msgId ev ++ r2.2.1, r2.2.2)

/-- `AudioProcessor._handle_process_audio_stream`: empty audio returns
without sending anything; otherwise frames are streamed, and
`no_speech` is emitted only when no event was produced AND the VAD
confirms silence (`is_in_speech()` false and no buffered speech,
ADR-009). -/
def handleProcessAudioStream (cls : Nat → Bool) (nowf : Nat → Nat)
    (st : PipelineState) (msgId : String) (audio_data : List Nat) :
    PipelineState × List Outbound :=
  if audio_data = [] then (st, [])
  else
    let r := streamLoop cls nowf msgId st (splitIntoFrames audio_data) 0 false
    if r.2.2 = false then
      if r.1.vad.is_in_speech = false ∧ r.1.speech_buffer = [] then
        (r.1, r.2.1 ++ [mkEvent "no_speech" (some msgId)])
      else (r.1, r.2.1)
    else (r.1, r.2.1)

/-- `AudioProcessor._handle_approve_upgrade`: a missing `target_model`
is a `MISSING_PARAMETER` error; otherwise `stt_engine.load_model` is
invoked with the requested target — with NO check against
`initial_model` — and on success `resource_monitor.current_model` is
set to the actual loaded size, one `response` plus an
`upgrade_success`/`upgrade_fallback` event are sent; on failure
`current_model` is unchanged and one `MODEL_LOAD_ERROR` error is
sent. -/
def handleApproveUpgrade (current_model : Model) (msgId : String)
    (target_model : Option Model) (load : Except Unit Model) :
    Model × List Outbound :=
  match target_model with
  | none => (current_model, [mkError msgId "MISSING_PARAMETER" true])
  | some target =>
    match load with
    | .ok actual =>
      (actual,
       [mkResponse msgId,
        mkEvent (if actual = target then "upgrade_success"
          else "upgrade_fallback") none])
    | .error _ => (current_model, [mkError msgId "MODEL_LOAD_ERROR" false])

/-- `AudioProcessor.handle_message` (new-protocol paths).  In this
embedding no handler raises — `transcribe` is total with a loaded
model (C10) and `load_model` outcomes are the explicit `load`
parameter — so the dispatcher's `INTERNAL_ERROR` catch-all is
unreachable and is not modelled. -/
def handleMessage (cls : Nat → Bool) (nowf : Nat → Nat)
    (load : Except Unit Model) (st : AppState) (msg : Inbound) :
    AppState × List Outbound :=
  match msg with
  | .request msgId method audio_data target_model =>
    if method = "process_audio" then
      let r := handleProcessAudio cls nowf st.pipe msgId audio_data
      (⟨r.1, st.current_model⟩, r.2)
    else if method = "process_audio_stream" then
      let r := handleProcessAudioStream cls nowf st.pipe msgId audio_data
      (⟨r.1, st.current_model⟩, r.2)
    else if method = "approve_upgrade" then
      let r := handleApproveUpgrade st.current_model msgId target_model load
      (⟨st.pipe, r.1⟩, r.2)
    else if method = "stop_processing" then
      (st, [mkResponse msgId])
    else
      (st, [mkError msgId "UNKNOWN_METHOD" true])
  | .ping msgId => (st, [mkPong msgId])
  | .shutdown => (st, [⟨"shutdown_ack", none, none, none, none, none⟩])
  | .unknownType msgId => (st, [mkError msgId "UNKNOWN_TYPE" true])

/-- Number of outbound messages of type `response` or `error` whose
top-level id equals `i`. -/
def countIdRespErr (outs : List Outbound) (i : String) : Nat :=
  (outs.filter fun o =>
    (o.type == "response" || o.type == "error") && o.id == some i).length

/-- An inbound line of the `IpcHandler.start` loop: either valid JSON
holding a parsed message, or a line `json.loads` rejects. -/
inductive InLine where
  | valid (msg : Inbound)
  | invalidJson
deriving DecidableEq, Repr

/-- `IpcHandler.receive_message`: a malformed JSON line raises
`IpcProtocolError` (`json.JSONDecodeError` is caught and re-raised as
`IpcProtocolError("Invalid JSON: ...")`). -/
def receiveMessage : InLine → Except String Inbound
  | .valid m => .ok m
  | .invalidJson => .error "Invalid JSON"

/-- `IpcHandler.start`: the inbound loop.  A raised `IpcProtocolError`
is caught, logged, and the loop continues with the next line — nothing
is sent.  The message handler is the state-threading `step`
function. -/
def ipcStart {σ : Type} (step : σ → Inbound → σ × List Outbound) :
    σ → List InLine → σ × List Outbound
  | st, [] => (st, [])
  | st, l :: rest =>
    match receiveMessage l with
    | .ok m =>
      let r := step st m
      let r2 := ipcStart step r.1 rest
      (r2.1, r.2 ++ r2.2)
    | .error _ => ipcStart step st rest

theorem splitIntoFrames_nil : splitIntoFrames [] = [] := by
  rw [splitIntoFrames]
  simp [bytesPerFrame]

theorem splitIntoFrames_length (audioData : List Nat) :
    (splitIntoFrames audioData).length = audioData.length / bytesPerFrame := by
  rw [splitIntoFrames]
  split
  · rename_i h
    simp only [List.length_cons,
      splitIntoFrames_length (audioData.drop bytesPerFrame), List.length_drop]
    simp only [bytesPerFrame] at *
    omega
  · rename_i h
    simp only [List.length_nil, bytesPerFrame] at *
    omega
termination_by audioData.length
decreasing_by
  simp only [List.length_drop, bytesPerFrame] at *
  omega

theorem splitIntoFrames_frame_length (audioData : List Nat) :
    ∀ f ∈ splitIntoFrames audioData, f.length = bytesPerFrame := by
  rw [splitIntoFrames]
  split
  · rename_i h
    intro f hf
    rcases List.mem_cons.mp hf with hf | hf
    · subst hf
      simp [List.length_take]
      omega
    · exact splitIntoFrames_frame_length (audioData.drop bytesPerFrame) f hf
  · intro f hf
    simp at hf
termination_by audioData.length
decreasing_by
  simp only [List.length_drop, bytesPerFrame] at *
  omega

theorem splitIntoFrames_join_isPrefix (audioData : List Nat) :
    (splitIntoFrames audioData).flatten <+: audioData := by
  rw [splitIntoFrames]
  split
  · rename_i h
    have ih := splitIntoFrames_join_isPrefix (audioData.drop bytesPerFrame)
    simp only [List.flatten_cons]
    obtain ⟨t, ht⟩ := ih
    refine ⟨t, ?_⟩
    rw [List.append_assoc, ht, List.take_append_drop]
  · exact List.nil_prefix
termination_by audioData.length
decreasing_by
  simp only [List.length_drop, bytesPerFrame] at *
  omega

/-- C8: for any byte sequence of length `n`, `split_into_frames`
returns exactly `⌊n/320⌋` frames, each of length 320 bytes, and their
concatenation is a prefix of the input (the trailing remainder shorter
than 320 bytes is discarded). -/
theorem c8_split_into_frames (audioData : List Nat) :
    (splitIntoFrames audioData).length = audioData.length / 320 ∧
    (∀ f ∈ splitIntoFrames audioData, f.length = 320) ∧
    (splitIntoFrames audioData).flatten <+: audioData :=
  ⟨splitIntoFrames_length audioData,
   splitIntoFrames_frame_length audioData,
   splitIntoFrames_join_isPrefix audioData⟩

/-! ### `VoiceActivityDetector.process_frame` (C3) -/

/-- C3 (code bug): feeding 30 consecutive speech-classified frames
(here the distinct one-byte frames `[0], [1], …, [29]`) to a fresh VAD
reaches onset on the 30th frame, but the emitted `speech_start` event
carries no pre-roll audio (the source dict is exactly
`{'event': 'speech_start'}` — there is no ring buffer in
`VoiceActivityDetector`), and the segment buffer is seeded with ONLY
the triggering frame `[29]`, not with 30 pre-roll frames plus the
trigger.  The claim's 31-frame seeding and pre-roll payload do not
exist in the code. -/
theorem c3_no_pre_roll_at_onset :
    vadRun VadState.init ((List.range 30).map fun i => ([i], true)) =
      ({ is_in_speech := true, speech_frames := 30, silence_frames := 0,
         current_segment := [[29]] }, [VadEvent.speechStart]) := by
  decide

/-! ### `AudioPipeline` (`audio_pipeline.py`) — C6 -/

theorem pipelineStep_belowOnset (k : Nat) (hk : k + 1 < 30) (fr : List Nat)
    (now : Nat) :
    pipelineStep ⟨⟨false, k, 0, []⟩, [], none, none, 0⟩ fr true now =
      (⟨⟨false, k + 1, 0, []⟩, [], none, none, 0⟩, none) := by
  have h : ¬ (speechOnsetThreshold ≤ k + 1) := by
    simp only [speechOnsetThreshold]; omega
  simp [pipelineStep, processFrame, handleVadEvent, h]

theorem pipelineStep_onset (fr : List Nat) (now : Nat) :
    pipelineStep ⟨⟨false, 29, 0, []⟩, [], none, none, 0⟩ fr true now =
      (⟨⟨true, 30, 0, [fr]⟩, [], some now, none, 0⟩,
       some (.speechStart now)) := by
  simp [pipelineStep, processFrame, handleVadEvent, shouldGeneratePartialText,
    speechOnsetThreshold]

theorem pipelineStep_inSpeech_noTrig (k : Nat) (seg : List (List Nat))
    (b : List Nat) (t0 : Nat) (lp : Option Nat) (c : Nat) (fr : List Nat)
    (now : Nat)
    (h : (shouldGeneratePartialText (some t0) lp (c + 1)).1 = false) :
    pipelineStep ⟨⟨true, k, 0, seg⟩, b, some t0, lp, c⟩ fr true now =
      (⟨⟨true, k + 1, 0, seg ++ [fr]⟩, b ++ fr, some t0, lp, c + 1⟩, none) := by
  have h2 : (shouldGeneratePartialText (some t0) lp (c + 1)).2 = c + 1 := by
    rcases lp with _ | t <;>
      simp only [shouldGeneratePartialText] at h ⊢ <;>
      split_ifs at h ⊢ <;> simp_all
  simp [pipelineStep, processFrame, handleVadEvent, h, h2]

theorem pipelineStep_inSpeech_trig (k : Nat) (seg : List (List Nat))
    (b : List Nat) (t0 : Nat) (lp : Option Nat) (c : Nat) (fr : List Nat)
    (now : Nat)
    (h : (shouldGeneratePartialText (some t0) lp (c + 1)).1 = true)
    (hb : b ++ fr ≠ []) :
    pipelineStep ⟨⟨true, k, 0, seg⟩, b, some t0, lp, c⟩ fr true now =
      (⟨⟨true, k + 1, 0, seg ++ [fr]⟩, b ++ fr, some t0, some now, 0⟩,
       some (.partialText (b ++ fr))) := by
  have h2 : (shouldGeneratePartialText (some t0) lp (c + 1)).2 = 0 := by
    rcases lp with _ | t <;>
      simp only [shouldGeneratePartialText] at h ⊢ <;>
      split_ifs at h ⊢ <;> simp_all
  simp [pipelineStep, processFrame, handleVadEvent, h, h2, hb]

theorem mapRange'_concat (f : Nat → List Nat) (s m : Nat) (hm : s ≤ m) :
    (List.range' s (m - s)).map f ++ [f m] = (List.range' s (m + 1 - s)).map f := by
  rw [show m + 1 - s = (m - s) + 1 by omega, List.range'_concat,
    show s + 1 * (m - s) = m by omega, List.map_append]
  simp

theorem flattenMapRange'_concat (f : Nat → List Nat) (s m : Nat) (hm : s ≤ m) :
    ((List.range' s (m - s)).map f).flatten ++ f m =
      ((List.range' s (m + 1 - s)).map f).flatten := by
  rw [show m + 1 - s = (m - s) + 1 by omega, List.range'_concat,
    show s + 1 * (m - s) = m by omega, List.map_append, List.flatten_append]
  simp

theorem allSpeechStep_eq (f : Nat → List Nat) (nowf : Nat → Nat)
    (hf : ∀ i, f i ≠ []) (m : Nat) :
    pipelineStep (allSpeechState f nowf m) (f m) true (nowf m) =
      (allSpeechState f nowf (m + 1), allSpeechEventSpec f nowf m) := by
  by_cases h29 : m < 29
  · rw [show allSpeechState f nowf m = ⟨⟨false, m, 0, []⟩, [], none, none, 0⟩ by
        unfold allSpeechState; rw [if_pos (by omega)]]
    rw [pipelineStep_belowOnset m (by omega) (f m) (nowf m)]
    rw [show allSpeechState f nowf (m + 1) =
          ⟨⟨false, m + 1, 0, []⟩, [], none, none, 0⟩ by
        unfold allSpeechState; rw [if_pos (by omega)]]
    rw [show allSpeechEventSpec f nowf m = none by
        unfold allSpeechEventSpec; rw [if_pos h29]]
  · by_cases h30 : m = 29
    · subst h30
      rw [show allSpeechState f nowf 29 = ⟨⟨false, 29, 0, []⟩, [], none, none, 0⟩ by
          unfold allSpeechState; rw [if_pos (by omega)]]
      rw [pipelineStep_onset (f 29) (nowf 29)]
      unfold allSpeechState allSpeechEventSpec
      norm_num [List.range']
    · -- 30 ≤ m : in-speech steady state
      have hm30 : 30 ≤ m := by omega
      rw [show allSpeechState f nowf m =
            ⟨⟨true, m, 0, (List.range' 29 (m - 29)).map f⟩,
             ((List.range' 30 (m - 30)).map f).flatten, some (nowf 29),
             (if m ≤ 39 then none else some (nowf (39 + 100 * ((m - 40) / 100)))),
             (if m ≤ 39 then m - 30 else (m - 40) % 100)⟩ by
          unfold allSpeechState; rw [if_neg (by omega)]]
      have hbuf : ((List.range' 30 (m - 30)).map f).flatten ++ f m ≠ [] := by
        intro hc
        exact hf m (List.append_eq_nil.mp hc).2
      by_cases h39 : m ≤ 38
      · -- before the first partial trigger
        simp only [if_pos (show m ≤ 39 by omega)]
        rw [pipelineStep_inSpeech_noTrig m _ _ _ none (m - 30) (f m) (nowf m)
          (by simp only [shouldGeneratePartialText, firstPartialTextFrames]
              rw [if_neg (by omega)])]
        rw [mapRange'_concat f 29 m (by omega),
          flattenMapRange'_concat f 30 m (by omega),
          show m - 30 + 1 = m + 1 - 30 by omega]
        unfold allSpeechState allSpeechEventSpec
        rw [if_neg (show ¬ (m + 1 ≤ 29) by omega),
          if_pos (show m + 1 ≤ 39 by omega), if_pos (show m + 1 ≤ 39 by omega),
          if_neg h29, if_neg h30,
          if_neg (show ¬ (39 ≤ m ∧ (m - 39) % 100 = 0) by omega)]
      · by_cases h40 : m = 39
        · -- frame 39: the first partial (10 in-speech frames after onset)
          subst h40
          simp only [if_pos (show (39:Nat) ≤ 39 by omega)]
          rw [pipelineStep_inSpeech_trig 39 _ _ _ none 9 (f 39) (nowf 39)
            (by simp [shouldGeneratePartialText, firstPartialTextFrames]) hbuf]
          rw [mapRange'_concat f 29 39 (by omega)]
          rw [show ((List.range' 30 (39 - 30)).map f).flatten ++ f 39 =
                ((List.range' 30 (39 + 1 - 30)).map f).flatten from
              flattenMapRange'_concat f 30 39 (by omega)]
          unfold allSpeechState allSpeechEventSpec
          rw [if_neg (show ¬ (39 + 1 ≤ 29) by omega),
            if_neg (show ¬ (39 + 1 ≤ 39) by omega),
            if_neg (show ¬ (39 + 1 ≤ 39) by omega),
            if_neg h29, if_neg h30,
            if_pos (show 39 ≤ 39 ∧ (39 - 39) % 100 = 0 by omega),
            show 39 + 100 * ((39 + 1 - 40) / 100) = 39 by norm_num,
            show (39 + 1 - 40) % 100 = 0 by norm_num]
        · -- 40 ≤ m
          have hm40 : 40 ≤ m := by omega
          simp only [if_neg (show ¬ (m ≤ 39) by omega)]
          by_cases htr : (m - 40) % 100 = 99
          · -- subsequent partial: counter reaches 100
            rw [pipelineStep_inSpeech_trig m _ _ _
              (some (nowf (39 + 100 * ((m - 40) / 100)))) ((m - 40) % 100)
              (f m) (nowf m)
              (by simp only [shouldGeneratePartialText, partialIntervalFrames]
                  rw [if_pos (by omega)]) hbuf]
            rw [mapRange'_concat f 29 m (by omega)]
            rw [show ((List.range' 30 (m - 30)).map f).flatten ++ f m =
                  ((List.range' 30 (m + 1 - 30)).map f).flatten from
                flattenMapRange'_concat f 30 m (by omega)]
            unfold allSpeechState allSpeechEventSpec
            rw [if_neg (show ¬ (m + 1 ≤ 29) by omega),
              if_neg (show ¬ (m + 1 ≤ 39) by omega),
              if_neg (show ¬ (m + 1 ≤ 39) by omega),
              if_neg h29, if_neg h30,
              if_pos (show 39 ≤ m ∧ (m - 39) % 100 = 0 by omega),
              show 39 + 100 * ((m + 1 - 40) / 100) = m by omega,
              show (m + 1 - 40) % 100 = 0 by omega]
          · -- counter strictly below 100: no partial this frame
            rw [pipelineStep_inSpeech_noTrig m _ _ _
              (some (nowf (39 + 100 * ((m - 40) / 100)))) ((m - 40) % 100)
              (f m) (nowf m)
              (by simp only [shouldGeneratePartialText, partialIntervalFrames]
                  rw [if_neg (by omega)])]
            rw [mapRange'_concat f 29 m (by omega),
              flattenMapRange'_concat f 30 m (by omega),
              show (m - 40) % 100 + 1 = (m + 1 - 40) % 100 by omega]
            unfold allSpeechState allSpeechEventSpec
            rw [if_neg (show ¬ (m + 1 ≤ 29) by omega),
              if_neg (show ¬ (m + 1 ≤ 39) by omega),
              if_neg (show ¬ (m + 1 ≤ 39) by omega),
              if_neg h29, if_neg h30,
              if_neg (show ¬ (39 ≤ m ∧ (m - 39) % 100 = 0) by omega),
              show 39 + 100 * ((m + 1 - 40) / 100) =
                39 + 100 * ((m - 40) / 100) by omega]

theorem allSpeechRun_eq (f : Nat → List Nat) (nowf : Nat → Nat)
    (hf : ∀ i, f i ≠ []) (m : Nat) :
    allSpeechRun f nowf m = allSpeechState f nowf m := by
  induction m with
  | zero =>
    unfold allSpeechRun allSpeechState PipelineState.init VadState.init
    rw [if_pos (by omega)]
  | succ m ih =>
    rw [allSpeechRun, ih, allSpeechStep_eq f nowf hf m]

theorem allSpeechEvent_eq (f : Nat → List Nat) (nowf : Nat → Nat)
    (hf : ∀ i, f i ≠ []) (m : Nat) :
    allSpeechEvent f nowf m = allSpeechEventSpec f nowf m := by
  rw [allSpeechEvent, allSpeechRun_eq f nowf hf m, allSpeechStep_eq f nowf hf m]

/-- C6: in a stream of consecutive speech frames (all frames non-empty
and classified as speech), (1) a partial transcription is requested
exactly while handling frames 39, 139, 239, … — i.e. the first partial
on the 10th in-speech frame after the `speech_start` event, and each
subsequent partial after exactly 100 further in-speech frames; (2) the
`speech_start` event is emitted exactly on frame 29; (3) at each
partial trigger `_frame_count_since_partial` is reset to zero; and
(4) the partial schedule is identical for every wall-clock assignment
`g` — the scheduling depends only on frame counts, never on wall-clock
time. -/
theorem c6_partial_schedule (f : Nat → List Nat) (nowf : Nat → Nat)
    (hf : ∀ i, f i ≠ []) (m : Nat) :
    ((∃ a, allSpeechEvent f nowf m = some (PipeEvent.partialText a)) ↔
      39 ≤ m ∧ (m - 39) % 100 = 0) ∧
    (allSpeechEvent f nowf m = some (PipeEvent.speechStart (nowf 29)) ↔ m = 29) ∧
    ((∃ a, allSpeechEvent f nowf m = some (PipeEvent.partialText a)) →
      (allSpeechRun f nowf (m + 1)).frames_since_partial_text = 0) ∧
    (∀ g : Nat → Nat,
      ((∃ a, allSpeechEvent f nowf m = some (PipeEvent.partialText a)) ↔
       (∃ a, allSpeechEvent f g m = some (PipeEvent.partialText a)))) := by
  refine ⟨?_, ?_, ?_, ?_⟩
  · rw [allSpeechEvent_eq f nowf hf m]
    unfold allSpeechEventSpec
    split_ifs with h1 h2 h3
    · simp only [Option.some.injEq, exists_false, false_iff]
      omega
    · simp only [Option.some.injEq, reduceCtorEq, exists_false, false_iff]
      omega
    · simp only [Option.some.injEq, PipeEvent.partialText.injEq]
      exact iff_of_true ⟨_, rfl⟩ h3
    · simp only [reduceCtorEq, exists_false, false_iff]
      exact h3
  · rw [allSpeechEvent_eq f nowf hf m]
    unfold allSpeechEventSpec
    split_ifs with h1 h2 h3
    · simp only [reduceCtorEq, false_iff]
      omega
    · simp [h2]
    · simp only [Option.some.injEq, reduceCtorEq, false_iff]
      omega
    · simp only [reduceCtorEq, false_iff]
      omega
  · intro ⟨a, ha⟩
    rw [allSpeechEvent_eq f nowf hf m] at ha
    unfold allSpeechEventSpec at ha
    split_ifs at ha with h1 h2 h3
    · exact absurd ha (by simp)
    · have hn29 : ¬ (m + 1 ≤ 29) := by omega
      have hn39 : ¬ (m + 1 ≤ 39) := by omega
      rw [allSpeechRun_eq f nowf hf (m + 1)]
      unfold allSpeechState
      rw [if_neg hn29, if_neg hn39, if_neg hn39]
      change (m + 1 - 40) % 100 = 0
      omega
  · intro g
    rw [allSpeechEvent_eq f nowf hf m, allSpeechEvent_eq f g hf m]
    unfold allSpeechEventSpec
    split_ifs with h1 h2 h3 <;> simp

/-! ### `ResourceMonitor` (`resource_monitor.py`) — C2, C7 -/

theorem updateStateMachine_shape (s : MonState) (c m : ℚ) :
    ∃ rc ms, updateStateMachine s c m =
      { s with
          cpu_samples :=
            (s.cpu_samples ++ [c]).drop ((s.cpu_samples ++ [c]).length - 2)
          recovery_sample_count := rc
          monitoring_state := ms } := by
  unfold updateStateMachine
  split
  · exact ⟨_, _, rfl⟩
  · dsimp only
    split_ifs <;> exact ⟨_, _, rfl⟩
  · exact ⟨_, _, rfl⟩

theorem monitorCycle_proposal (cm ini : Model) (chs : Option ℚ)
    (csamp : List ℚ) (rc : Nat) (last t1 cpu app_mem sys_avail now : ℚ)
    (ms : MState) (load : Except Unit Model)
    (hmem : app_mem < 1/2) (hcpu : cpu < 50) (hdur : 300 ≤ now - t1)
    (hup : upIdx cm < upIdx ini) :
    monitorCycle ⟨cm, some ini, chs, some t1, csamp, rc, last, ms⟩
        cpu app_mem sys_avail now load =
      (⟨cm, some ini, none, none,
        ((csamp ++ [cpu]).drop ((csamp ++ [cpu]).length - 2)), 0, last,
        .monitoring⟩,
       [MonEvent.upgradeProposal cm ini], false) := by
  obtain ⟨rc1, ms1, hu⟩ :=
    updateStateMachine_shape ⟨cm, some ini, chs, some t1, csamp, rc, last, ms⟩
      cpu sys_avail
  have h85 : ¬ ((85:ℚ) ≤ cpu) := by linarith
  have h2m : ¬ ((2:ℚ) ≤ app_mem) := by linarith
  have h32 : ¬ ((3:ℚ)/2 ≤ app_mem) := by linarith
  have hne : ini ≠ cm := by
    intro e
    rw [e] at hup
    exact lt_irrefl _ hup
  unfold monitorCycle trackCpuHigh trackLowResource
  rw [hu]
  simp only [if_neg h85, if_pos (And.intro hmem hcpu)]
  unfold monitorDowngradePhase shouldDowngradeMemory
  simp only [if_neg h2m, if_neg h32]
  unfold monitorProposalPhase
  simp only [if_pos hdur]
  simp only [if_pos (And.intro hne hup)]
  unfold shouldPauseRecording
  simp only [if_neg h2m, if_neg h85]
  simp

/-- Tenth qualifying tick in `degraded`: the recovery counter reaches
10 and the monitor transitions to `recovering`, with no events. -/
theorem monitorCycle_quietStepTen (cs : List ℚ) (now : ℚ)
    (load : Except Unit Model) :
    monitorCycle ⟨.base, some .small, none, none, cs, 9, 0, .degraded⟩
        30 1 3 now load =
      (⟨.base, some .small, none, none,
        (cs ++ [30]).drop ((cs ++ [30]).length - 2), 10, 0, .recovering⟩,
       [], false) := by
  unfold monitorCycle trackCpuHigh trackLowResource updateStateMachine
    monitorDowngradePhase shouldDowngradeMemory monitorProposalPhase
    shouldPauseRecording
  norm_num

theorem monitorCycle_quietStepRecovering (cs : List ℚ) (rc : Nat) (now : ℚ)
    (load : Except Unit Model) :
    monitorCycle ⟨.base, some .small, none, none, cs, rc, 0, .recovering⟩
        30 1 3 now load =
      (⟨.base, some .small, none, none,
        (cs ++ [30]).drop ((cs ++ [30]).length - 2), rc, 0, .recovering⟩,
       [], false) := by
  unfold monitorCycle trackCpuHigh trackLowResource updateStateMachine
    monitorDowngradePhase shouldDowngradeMemory monitorProposalPhase
    shouldPauseRecording
  norm_num

theorem monitorCycle_quietStep (cs : List ℚ) (rc rcSucc : Nat) (now : ℚ)
    (load : Except Unit Model) (hrc : rcSucc = rc + 1) (hlt : rcSucc < 10) :
    monitorCycle ⟨.base, some .small, none, none, cs, rc, 0, .degraded⟩
        30 1 3 now load =
      (⟨.base, some .small, none, none,
        (cs ++ [30]).drop ((cs ++ [30]).length - 2), rcSucc, 0, .degraded⟩,
       [], false) := by
  subst hrc
  unfold monitorCycle trackCpuHigh trackLowResource updateStateMachine
    monitorDowngradePhase shouldDowngradeMemory monitorProposalPhase
    shouldPauseRecording
  norm_num
  rw [if_neg (by omega : ¬ (10 ≤ rc + 1))]
  simp

/-- C2 counterexample: from the degraded state, the first 10
qualifying ticks (cpu 30 % < 50, available 3 GB ≥ 2 GB) put the
monitor in `recovering`, but the run emits no `upgrade_proposal` at
all — in particular none on the 11th tick — and the monitor stays in
`recovering` instead of returning to `monitoring`: the proposal is
driven by the separate `low_resource_start_time` wall-clock timer,
which never starts here because the process RSS (1 GB) is not below
0.5 GB. -/
theorem c2_counterexample :
    (monitorRun c2DegradedState c2Ticks).2 = [] ∧
    (monitorRun c2DegradedState c2Ticks).1.monitoring_state =
      MState.recovering := by
  simp only [c2Ticks, c2DegradedState, monitorRun]
  rw [monitorCycle_quietStep _ 0 1 _ _ rfl (by norm_num)]
  dsimp only
  rw [monitorCycle_quietStep _ 1 2 _ _ rfl (by norm_num)]
  dsimp only
  rw [monitorCycle_quietStep _ 2 3 _ _ rfl (by norm_num)]
  dsimp only
  rw [monitorCycle_quietStep _ 3 4 _ _ rfl (by norm_num)]
  dsimp only
  rw [monitorCycle_quietStep _ 4 5 _ _ rfl (by norm_num)]
  dsimp only
  rw [monitorCycle_quietStep _ 5 6 _ _ rfl (by norm_num)]
  dsimp only
  rw [monitorCycle_quietStep _ 6 7 _ _ rfl (by norm_num)]
  dsimp only
  rw [monitorCycle_quietStep _ 7 8 _ _ rfl (by norm_num)]
  dsimp only
  rw [monitorCycle_quietStep _ 8 9 _ _ rfl (by norm_num)]
  dsimp only
  rw [monitorCycle_quietStepTen]
  dsimp only
  rw [monitorCycle_quietStepRecovering]
  dsimp only
  simp

/-- C2 (corrected): (1) in the `degraded` state each tick with
`cpu < 50 %` and available memory ≥ 2 GB increments
`recovery_sample_count`, entering `recovering` exactly when the
counter reaches 10, and any other tick resets the counter to 0 and
stays `degraded`; however (2) the `upgrade_proposal` is NOT emitted by
the `recovering` state on the next tick: it is driven by the separate
`low_resource_start_time` wall-clock timer — once that timer shows
≥ 300 s of app RSS < 0.5 GB and cpu < 50 %, the cycle proposes
`initial_model` directly (not the next-larger size) whenever
`initial_model` is strictly larger than `current_model`, and only then
returns to `monitoring` with the counter cleared and the low-resource
timer reset. -/
theorem c2_recovery_and_upgrade_proposal :
    (∀ (s : MonState) (cpu mem_avail : ℚ),
      s.monitoring_state = .degraded →
      ((cpu < 50 ∧ 2 ≤ mem_avail) →
        (updateStateMachine s cpu mem_avail).recovery_sample_count =
          s.recovery_sample_count + 1 ∧
        ((updateStateMachine s cpu mem_avail).monitoring_state = .recovering ↔
          10 ≤ s.recovery_sample_count + 1)) ∧
      (¬ (cpu < 50 ∧ 2 ≤ mem_avail) →
        (updateStateMachine s cpu mem_avail).recovery_sample_count = 0 ∧
        (updateStateMachine s cpu mem_avail).monitoring_state = .degraded)) ∧
    (∀ (cm ini : Model) (chs : Option ℚ) (csamp : List ℚ) (rc : Nat)
        (last t1 cpu app_mem sys_avail now : ℚ) (ms : MState)
        (load : Except Unit Model),
      app_mem < 1/2 → cpu < 50 → 300 ≤ now - t1 → upIdx cm < upIdx ini →
      (monitorCycle ⟨cm, some ini, chs, some t1, csamp, rc, last, ms⟩
          cpu app_mem sys_avail now load).2.1 =
        [MonEvent.upgradeProposal cm ini] ∧
      (monitorCycle ⟨cm, some ini, chs, some t1, csamp, rc, last, ms⟩
          cpu app_mem sys_avail now load).1.monitoring_state = .monitoring ∧
      (monitorCycle ⟨cm, some ini, chs, some t1, csamp, rc, last, ms⟩
          cpu app_mem sys_avail now load).1.recovery_sample_count = 0 ∧
      (monitorCycle ⟨cm, some ini, chs, some t1, csamp, rc, last, ms⟩
          cpu app_mem sys_avail now load).1.low_resource_start_time = none) := by
  constructor
  · intro s cpu mem_avail hdeg
    constructor
    · intro hq
      unfold updateStateMachine
      rw [hdeg]
      dsimp only
      rw [if_pos hq]
      split_ifs with h10
      · simp [h10]
      · simp [hdeg, h10]
    · intro hq
      unfold updateStateMachine
      rw [hdeg]
      dsimp only
      rw [if_neg hq]
      simp [hdeg]
  · intro cm ini chs csamp rc last t1 cpu app_mem sys_avail now ms load
      hmem hcpu hdur hup
    rw [monitorCycle_proposal cm ini chs csamp rc last t1 cpu app_mem
      sys_avail now ms load hmem hcpu hdur hup]
    exact ⟨rfl, rfl, rfl, rfl⟩

/-- Witness for `c2_recovery_and_upgrade_proposal` at concrete inputs:
a degraded state with 9 recovery samples and a qualifying tick enters
`recovering`, and a matured low-resource timer yields exactly one
`upgrade_proposal base → small`. -/
theorem c2_recovery_and_upgrade_proposal_witness :
    ((updateStateMachine ⟨.base, some .small, none, none, [], 9, 0, .degraded⟩
        30 3).monitoring_state = .recovering ↔ 10 ≤ 9 + 1) ∧
    (monitorCycle ⟨.base, some .small, none, some 0, [], 0, 0, .monitoring⟩
        30 (1/4) 3 300 (.ok .base)).2.1 =
      [MonEvent.upgradeProposal .base .small] :=
  ⟨((c2_recovery_and_upgrade_proposal.1
      ⟨.base, some .small, none, none, [], 9, 0, .degraded⟩ 30 3 rfl).1
      (by norm_num)).2,
   (c2_recovery_and_upgrade_proposal.2 .base .small none [] 0 0 0 30 (1/4) 3
      300 .monitoring (.ok .base) (by norm_num) (by norm_num) (by norm_num)
      (by decide)).1⟩

theorem trackCpuHigh_preserves (s : MonState) (cpu now : ℚ) :
    (trackCpuHigh s cpu now).last_downgrade_timestamp =
      s.last_downgrade_timestamp ∧
    (trackCpuHigh s cpu now).low_resource_start_time =
      s.low_resource_start_time ∧
    (trackCpuHigh s cpu now).current_model = s.current_model := by
  unfold trackCpuHigh
  split
  · split <;> simp
  · simp

theorem trackLowResource_preserves (s : MonState) (cpu app_mem now : ℚ) :
    (trackLowResource s cpu app_mem now).last_downgrade_timestamp =
      s.last_downgrade_timestamp ∧
    (trackLowResource s cpu app_mem now).cpu_high_start_time =
      s.cpu_high_start_time ∧
    (trackLowResource s cpu app_mem now).current_model = s.current_model := by
  unfold trackLowResource
  split
  · split <;> simp
  · simp

theorem monitorDowngradePhase_cpuSustained_mem (s : MonState)
    (app_mem now : ℚ) (load : Except Unit Model) (old nm : Model)
    (h : MonEvent.downgrade .cpuSustained old nm ∈
      (monitorDowngradePhase s app_mem now load).2.1) :
    shouldDebounceDowngrade now s.last_downgrade_timestamp = false := by
  unfold monitorDowngradePhase at h
  repeat' first
    | (split at h)
    | (split_ifs at h)
  all_goals simp_all

theorem monitorProposalPhase_events (s : MonState) (now : ℚ) :
    (monitorProposalPhase s now).2 = [] ∨
    ∃ c t, (monitorProposalPhase s now).2 = [MonEvent.upgradeProposal c t] := by
  unfold monitorProposalPhase
  repeat' first
    | (split)
    | (split_ifs)
  all_goals (try simp)
  all_goals
    (cases hg : getUpgradeTarget s.initial_model s.current_model <;> simp [hg])

/-- C7: (1) whenever the CPU-sustained rule actually invokes a
downgrade during a monitor cycle, at least 60 s have elapsed since
`last_downgrade_timestamp`; and (2) when the rule's condition holds
(cpu ≥ 85 % since `t0`, ≥ 60 s ago, no memory trigger) but the
downgrade is suppressed by the debounce, the cycle resets nothing: the
CPU-high start timer is still `t0` afterwards and no downgrade
callback of any kind is invoked, so the trigger stays armed. -/
theorem c7_cpu_downgrade_debounce :
    (∀ (s : MonState) (cpu app_mem sys_avail now : ℚ)
        (load : Except Unit Model) (old nm : Model),
      MonEvent.downgrade .cpuSustained old nm ∈
        (monitorCycle s cpu app_mem sys_avail now load).2.1 →
      60 ≤ now - s.last_downgrade_timestamp) ∧
    (∀ (s : MonState) (cpu app_mem sys_avail now t0 : ℚ)
        (load : Except Unit Model),
      s.cpu_high_start_time = some t0 → 85 ≤ cpu → app_mem < 3/2 →
      60 ≤ now - t0 → now - s.last_downgrade_timestamp < 60 →
      (monitorCycle s cpu app_mem sys_avail now load).1.cpu_high_start_time =
        some t0 ∧
      ∀ r o n, MonEvent.downgrade r o n ∉
        (monitorCycle s cpu app_mem sys_avail now load).2.1) := by
  constructor
  · intro s cpu app_mem sys_avail now load old nm h
    simp only [monitorCycle] at h
    have hlast :
        (trackLowResource (trackCpuHigh (updateStateMachine s cpu sys_avail)
            cpu now) cpu app_mem now).last_downgrade_timestamp =
          s.last_downgrade_timestamp := by
      rw [(trackLowResource_preserves _ _ _ _).1,
        (trackCpuHigh_preserves _ _ _).1]
      obtain ⟨rc1, ms1, hu⟩ := updateStateMachine_shape s cpu sys_avail
      rw [hu]
    have hdeb : ∀ hmem2 :
        MonEvent.downgrade .cpuSustained old nm ∈
          (monitorDowngradePhase
            (trackLowResource (trackCpuHigh (updateStateMachine s cpu
              sys_avail) cpu now) cpu app_mem now) app_mem now load).2.1,
        60 ≤ now - s.last_downgrade_timestamp := by
      intro hmem2
      have hd := monitorDowngradePhase_cpuSustained_mem _ app_mem now load
        old nm hmem2
      rw [hlast] at hd
      simp only [shouldDebounceDowngrade, decide_eq_false_iff_not,
        not_lt] at hd
      exact hd
    split at h
    · exact hdeb h
    · rcases List.mem_append.mp h with h2 | hp
      · rcases List.mem_append.mp h2 with hd | hp2
        · exact hdeb hd
        · rcases monitorProposalPhase_events
            (monitorDowngradePhase (trackLowResource (trackCpuHigh
              (updateStateMachine s cpu sys_avail) cpu now) cpu app_mem
              now) app_mem now load).1 now with he | ⟨c, t, he⟩ <;>
            rw [he] at hp2 <;> simp at hp2
      · split at hp <;> simp at hp
  · intro s cpu app_mem sys_avail now t0 load hch hcpu hmem hdur hdeb
    obtain ⟨rc1, ms1, hu⟩ := updateStateMachine_shape s cpu sys_avail
    have h2m : ¬ ((2:ℚ) ≤ app_mem) := by linarith
    have h32 : ¬ ((3:ℚ)/2 ≤ app_mem) := by linarith
    have h50 : ¬ (app_mem < 1/2 ∧ cpu < 50) := by
      intro hc
      linarith [hc.2]
    have hdbt : shouldDebounceDowngrade now s.last_downgrade_timestamp
        = true := by
      simp only [shouldDebounceDowngrade, decide_eq_true_eq]
      linarith
    have hL2 : trackCpuHigh (updateStateMachine s cpu sys_avail) cpu now =
        ⟨s.current_model, s.initial_model, some t0, s.low_resource_start_time,
         (s.cpu_samples ++ [cpu]).drop ((s.cpu_samples ++ [cpu]).length - 2),
         rc1, s.last_downgrade_timestamp, ms1⟩ := by
      unfold trackCpuHigh
      rw [hu, if_pos hcpu]
      dsimp only
      rw [hch]
    have hL3 : trackLowResource
        ⟨s.current_model, s.initial_model, some t0, s.low_resource_start_time,
         (s.cpu_samples ++ [cpu]).drop ((s.cpu_samples ++ [cpu]).length - 2),
         rc1, s.last_downgrade_timestamp, ms1⟩ cpu app_mem now =
        ⟨s.current_model, s.initial_model, some t0, none,
         (s.cpu_samples ++ [cpu]).drop ((s.cpu_samples ++ [cpu]).length - 2),
         rc1, s.last_downgrade_timestamp, ms1⟩ := by
      unfold trackLowResource
      rw [if_neg h50]
    have hd : monitorDowngradePhase
        ⟨s.current_model, s.initial_model, some t0, none,
         (s.cpu_samples ++ [cpu]).drop ((s.cpu_samples ++ [cpu]).length - 2),
         rc1, s.last_downgrade_timestamp, ms1⟩ app_mem now load =
        (⟨s.current_model, s.initial_model, some t0, none,
          (s.cpu_samples ++ [cpu]).drop ((s.cpu_samples ++ [cpu]).length - 2),
          rc1, s.last_downgrade_timestamp, ms1⟩, [], false) := by
      unfold monitorDowngradePhase shouldDowngradeMemory
      rw [if_neg h2m, if_neg h32]
      dsimp only
      rw [if_pos hdur, hdbt, if_pos rfl]
    have hp : monitorProposalPhase
        ⟨s.current_model, s.initial_model, some t0, none,
         (s.cpu_samples ++ [cpu]).drop ((s.cpu_samples ++ [cpu]).length - 2),
         rc1, s.last_downgrade_timestamp, ms1⟩ now =
        (⟨s.current_model, s.initial_model, some t0, none,
          (s.cpu_samples ++ [cpu]).drop ((s.cpu_samples ++ [cpu]).length - 2),
          rc1, s.last_downgrade_timestamp, ms1⟩, []) := by
      unfold monitorProposalPhase
      rfl
    simp only [monitorCycle, hL2, hL3, hd, hp]
    refine ⟨by simp, ?_⟩
    intro r o n
    simp only [if_neg (by simp : ¬ (false = true)), List.nil_append]
    split <;> simp

/-- Witness for `c7_cpu_downgrade_debounce` (suppression part) at a
concrete input: cpu high since `t0 = 0`, `now = 70`, last downgrade at
20 (only 50 s ago): the cycle keeps the timer and performs no
downgrade. -/
theorem c7_cpu_downgrade_debounce_witness :
    (monitorCycle ⟨.small, some .small, some 0, none, [], 0, 20, .monitoring⟩
        90 1 3 70 (.ok .base)).1.cpu_high_start_time = some 0 ∧
    ∀ r o n, MonEvent.downgrade r o n ∉
      (monitorCycle ⟨.small, some .small, some 0, none, [], 0, 20, .monitoring⟩
        90 1 3 70 (.ok .base)).2.1 :=
  c7_cpu_downgrade_debounce.2
    ⟨.small, some .small, some 0, none, [], 0, 20, .monitoring⟩
    90 1 3 70 0 (.ok .base) rfl (by norm_num) (by norm_num) (by norm_num)
    (by norm_num)

/-! ### `WhisperSTTEngine.load_model` (`whisper_client.py`) — C5 -/

/-- C5: `load_model` is atomic on error — whenever model-path
detection fails or the `WhisperModel` constructor raises, the engine
state `(model, model_size, model_path)` is restored exactly to its
value before the call, the exception is re-raised, and no model
instance is released (the previously loaded model remains in the
`model` slot, usable); on success the engine holds the newly
constructed instance, the returned size is the actual loaded size, and
exactly the old instance is released — only after the new model has
been constructed. -/
theorem c5_load_model_atomic_rollback (s : EngineState) (target : Model)
    (detect : DetectOutcome) (construct : Option Nat) :
    (detect = .notFound ∨ construct = none →
      loadModel s target detect construct = (s, .error (), none)) ∧
    (∀ inst path sizeAfter,
      construct = some inst → detect = .found path sizeAfter →
      loadModel s target detect construct =
        (⟨some inst, sizeAfter, path⟩, .ok sizeAfter, s.model)) ∧
    (∀ inst, construct = some inst → detect = .networkError →
      loadModel s target detect construct =
        (⟨some inst, target,
          "Systran/faster-whisper-" ++ modelName target⟩, .ok target,
         s.model)) := by
  refine ⟨?_, ?_, ?_⟩
  · intro h
    rcases h with h | h
    · subst h
      cases construct <;> simp [loadModel]
    · subst h
      cases detect <;> simp [loadModel]
  · intro inst path sizeAfter hc hd
    subst hc
    subst hd
    simp [loadModel]
  · intro inst hc hd
    subst hc
    subst hd
    simp [loadModel]

/-- Witness for `c5_load_model_atomic_rollback`: a failed constructor
call leaves the state `⟨some 7, small, "p"⟩` untouched, re-raises, and
releases nothing. -/
theorem c5_load_model_atomic_rollback_witness :
    loadModel ⟨some 7, .small, "p"⟩ .medium (.found "q" .medium) none =
      (⟨some 7, .small, "p"⟩, .error (), none) :=
  (c5_load_model_atomic_rollback ⟨some 7, .small, "p"⟩ .medium
    (.found "q" .medium) none).1 (Or.inr rfl)

/-! ### `WhisperSTTEngine.transcribe` (`whisper_client.py`) — C10 -/

theorem roundConf3_mem_unit (c : ℚ) (h0 : 0 ≤ c) (h1 : c ≤ 1) :
    0 ≤ roundConf3 c ∧ roundConf3 c ≤ 1 := by
  unfold roundConf3
  have hf0 : (0:ℤ) ≤ ⌊c * 1000 + 1/2⌋ := Int.floor_nonneg.mpr (by linarith)
  have hf1 : ⌊c * 1000 + 1/2⌋ ≤ 1000 := by
    have hlt : ⌊c * 1000 + 1/2⌋ < 1001 := by
      rw [Int.floor_lt]
      push_cast
      linarith
    omega
  constructor
  · positivity
  · rw [div_le_one (by norm_num)]
    exact_mod_cast hf1

/-- C10: with a model loaded, `transcribe` never raises: every input
returns a result dict.  Empty input and undecodable (odd-length)
input return empty text, confidence 0, the requested `is_final` flag
and error `INVALID_AUDIO`; a backend exception returns empty text,
confidence 0, the requested flag and the exception text in the error
field; and every returned result's confidence lies in `[0, 1]`. -/
theorem c10_transcribe_total_and_clamped (audio_data : List Nat)
    (is_final : Bool) (backend : Except String (List (String × ℚ) × String))
    (expMean : ℚ) (procMs : Nat) :
    (∃ r, transcribe true audio_data is_final backend expMean procMs =
      .ok r) ∧
    (audio_data = [] →
      transcribe true audio_data is_final backend expMean procMs =
        .ok ⟨"", 0, "ja", is_final, 0, some "INVALID_AUDIO"⟩) ∧
    (audio_data.length % 2 = 1 →
      transcribe true audio_data is_final backend expMean procMs =
        .ok ⟨"", 0, "ja", is_final, procMs, some "INVALID_AUDIO"⟩) ∧
    (∀ e, backend = .error e → audio_data ≠ [] →
      audio_data.length % 2 = 0 →
      transcribe true audio_data is_final backend expMean procMs =
        .ok ⟨"", 0, "ja", is_final, procMs, some e⟩) ∧
    (∀ r, transcribe true audio_data is_final backend expMean procMs =
      .ok r → (0 ≤ r.confidence ∧ r.confidence ≤ 1) ∧
      r.is_final = is_final) := by
  have hclamp : ∀ n : Nat, 0 ≤ (if 0 < n then min 1 (max 0 expMean) else 0) ∧
      (if 0 < n then min 1 (max 0 expMean) else 0) ≤ 1 := by
    intro n
    split_ifs
    · exact ⟨le_min (by norm_num) (le_max_left 0 expMean), min_le_left _ _⟩
    · norm_num
  refine ⟨?_, ?_, ?_, ?_, ?_⟩
  · simp only [transcribe, Bool.not_true]
    rw [if_neg (by simp)]
    split_ifs
    · exact ⟨_, rfl⟩
    · exact ⟨_, rfl⟩
    · cases backend with
      | error e => exact ⟨_, rfl⟩
      | ok p =>
        cases p
        exact ⟨_, rfl⟩
  · intro h
    subst h
    simp [transcribe]
  · intro h
    have hne : audio_data.length ≠ 0 := by omega
    simp only [transcribe, Bool.not_true]
    rw [if_neg (by simp), if_neg hne, if_pos (by omega)]
  · intro e hb h0 h2
    subst hb
    have hne : audio_data.length ≠ 0 := by
      intro hc
      exact h0 (List.length_eq_zero.mp hc)
    simp only [transcribe, Bool.not_true]
    rw [if_neg (by simp), if_neg hne, if_neg (by omega)]
  · intro r hr
    simp only [transcribe, Bool.not_true] at hr
    rw [if_neg (by simp)] at hr
    split_ifs at hr with h1 h2
    · rw [Except.ok.injEq] at hr
      subst hr
      refine ⟨⟨le_refl 0, by norm_num⟩, rfl⟩
    · rw [Except.ok.injEq] at hr
      subst hr
      refine ⟨⟨le_refl 0, by norm_num⟩, rfl⟩
    · cases backend with
      | error e =>
        rw [show (match (Except.error e :
            Except String (List (String × ℚ) × String)) with
          | .error e => Except.ok (⟨"", 0, "ja", is_final, procMs, some e⟩ :
              TranscriptionResult)
          | .ok (segments, language) =>
            Except.ok ⟨(String.join (segments.map Prod.fst)).trim,
              roundConf3 (if 0 < segments.length then min 1 (max 0 expMean)
                else 0), language, is_final, procMs, none⟩) =
          Except.ok (⟨"", 0, "ja", is_final, procMs, some e⟩ :
            TranscriptionResult) from rfl, Except.ok.injEq] at hr
        subst hr
        refine ⟨⟨le_refl 0, by norm_num⟩, rfl⟩
      | ok p =>
        obtain ⟨segments, language⟩ := p
        rw [show (match (Except.ok (segments, language) :
            Except String (List (String × ℚ) × String)) with
          | .error e => Except.ok (⟨"", 0, "ja", is_final, procMs, some e⟩ :
              TranscriptionResult)
          | .ok (segments, language) =>
            Except.ok ⟨(String.join (segments.map Prod.fst)).trim,
              roundConf3 (if 0 < segments.length then min 1 (max 0 expMean)
                else 0), language, is_final, procMs, none⟩) =
          Except.ok (⟨(String.join (segments.map Prod.fst)).trim,
            roundConf3 (if 0 < segments.length then min 1 (max 0 expMean)
              else 0), language, is_final, procMs, none⟩ :
            TranscriptionResult) from rfl, Except.ok.injEq] at hr
        subst hr
        have hb := roundConf3_mem_unit _ (hclamp segments.length).1
          (hclamp segments.length).2
        exact ⟨hb, rfl⟩

/-- Witness for `c10_transcribe_total_and_clamped`: an odd-length
(undecodable) 3-byte input yields the `INVALID_AUDIO` result dict. -/
theorem c10_transcribe_total_and_clamped_witness :
    transcribe true [0, 1, 2] false (.ok ([("a", -1)], "ja")) (7/2) 5 =
      .ok ⟨"", 0, "ja", false, 5, some "INVALID_AUDIO"⟩ :=
  (c10_transcribe_total_and_clamped [0, 1, 2] false (.ok ([("a", -1)], "ja"))
    (7/2) 5).2.2.1 (by norm_num)

/-! ### IPC messages, dispatcher and inbound loop
(`main.py`, `ipc_handler.py`) — C1, C4, C9 -/

theorem handleVadEvent_no_error (s : PipelineState) (ev : Option VadEvent)
    (now : Nat) (m : String) :
    (handleVadEvent s ev now).2 ≠ some (.pipelineError m) := by
  unfold handleVadEvent
  split
  · simp
  · simp
  · split_ifs <;> simp

theorem pipelineStep_no_error (s : PipelineState) (fr : List Nat) (b : Bool)
    (now : Nat) (m : String) :
    (pipelineStep s fr b now).2 ≠ some (.pipelineError m) := by
  unfold pipelineStep
  dsimp only
  repeat' split
  all_goals first
    | exact handleVadEvent_no_error _ _ _ m
    | simp

theorem streamLoop_events (cls : Nat → Bool) (nowf : Nat → Nat)
    (msgId : String) (frames : List (List Nat)) :
    ∀ (ps : PipelineState) (k : Nat) (sd : Bool),
      ∀ o ∈ (streamLoop cls nowf msgId ps frames k sd).2.1,
        o.type = "event" ∧ o.id = none := by
  induction frames with
  | nil =>
    intro ps k sd o ho
    simp [streamLoop] at ho
  | cons fr rest ih =>
    intro ps k sd o ho
    rw [streamLoop] at ho
    rcases hr : (pipelineStep ps fr (cls k) (nowf k)).2 with _ | ev
    · rw [hr] at ho
      exact ih _ _ _ o ho
    · rw [hr] at ho
      cases ev with
      | speechStart t =>
        rcases List.mem_append.mp ho with hl | hrr
        · have h : o = mkEvent "speech_start" (some msgId) := by
            simpa [streamEventOutbound] using hl
          simp [h, mkEvent]
        · exact ih _ _ _ o hrr
      | partialText a =>
        rcases List.mem_append.mp ho with hl | hrr
        · have h : o = mkEvent "partial_text" (some msgId) := by
            simpa [streamEventOutbound] using hl
          simp [h, mkEvent]
        · exact ih _ _ _ o hrr
      | finalText a d =>
        rcases List.mem_append.mp ho with hl | hrr
        · have h : o = mkEvent "final_text" (some msgId) ∨
              o = mkEvent "speech_end" (some msgId) := by
            simpa [streamEventOutbound] using hl
          rcases h with h | h <;> simp [h, mkEvent]
        · exact ih _ _ _ o hrr
      | speechEnd a d =>
        rcases List.mem_append.mp ho with hl | hrr
        · have h : o = mkEvent "speech_end" (some msgId) := by
            simpa [streamEventOutbound] using hl
          simp [h, mkEvent]
        · exact ih _ _ _ o hrr
      | pipelineError m =>
        exact absurd hr (pipelineStep_no_error _ _ _ _ m)

/-- Witness for `c6_partial_schedule`: at frame 39 of an all-speech
stream of non-empty frames, a `partial_text` event is due. -/
theorem c6_partial_schedule_witness :
    (∀ i : Nat, (fun _ : Nat => ([0] : List Nat)) i ≠ []) ∧
    ((∃ a, allSpeechEvent (fun _ => [0]) (fun _ => 0) 39 =
        some (PipeEvent.partialText a)) ↔ 39 ≤ 39 ∧ (39 - 39) % 100 = 0) :=
  ⟨fun _ => by simp,
   (c6_partial_schedule (fun _ => [0]) (fun _ => 0) (fun _ => by simp) 39).1⟩

theorem countIdRespErr_nil (i : String) : countIdRespErr [] i = 0 := rfl

theorem countIdRespErr_cons_event (et : String) (rid : Option String)
    (rest : List Outbound) (i : String) :
    countIdRespErr (mkEvent et rid :: rest) i = countIdRespErr rest i := rfl

theorem countIdRespErr_cons_pong (j : String) (rest : List Outbound)
    (i : String) :
    countIdRespErr (mkPong j :: rest) i = countIdRespErr rest i := rfl

theorem countIdRespErr_cons_resp (rest : List Outbound) (i : String) :
    countIdRespErr (mkResponse i :: rest) i = countIdRespErr rest i + 1 := by
  unfold countIdRespErr mkResponse
  rw [List.filter_cons]
  rw [show ((("response" : String) == "response" || ("response" : String) ==
    "error") = true) from by decide]
  rw [Bool.true_and, beq_self_eq_true, if_pos rfl]
  rfl

theorem countIdRespErr_cons_err (c : String) (r : Bool)
    (rest : List Outbound) (i : String) :
    countIdRespErr (mkError i c r :: rest) i = countIdRespErr rest i + 1 := by
  unfold countIdRespErr mkError
  rw [List.filter_cons]
  rw [show ((("error" : String) == "response" || ("error" : String) ==
    "error") = true) from by decide]
  rw [Bool.true_and, beq_self_eq_true, if_pos rfl]
  rfl

theorem countIdRespErr_eq_zero (outs : List Outbound) (i : String)
    (h : ∀ o ∈ outs, o.type = "event") : countIdRespErr outs i = 0 := by
  induction outs with
  | nil => rfl
  | cons o rest ih =>
    have ht := h o (List.mem_cons_self o rest)
    have hb : (o.type == "response" || o.type == "error") = false := by
      rw [ht]; decide
    have hrest := ih fun x hx => h x (List.mem_cons_of_mem o hx)
    unfold countIdRespErr at hrest ⊢
    rw [List.filter_cons, hb, Bool.false_and, if_neg (by simp)]
    exact hrest

theorem handleProcessAudioStream_events (cls : Nat → Bool)
    (nowf : Nat → Nat) (st : PipelineState) (msgId : String)
    (audio : List Nat) :
    ∀ o ∈ (handleProcessAudioStream cls nowf st msgId audio).2,
      o.type = "event" ∧ o.id = none := by
  intro o ho
  unfold handleProcessAudioStream at ho
  dsimp only at ho
  split_ifs at ho with h1 h2 h3
  · simp at ho
  · rcases List.mem_append.mp ho with hl | hr
    · exact streamLoop_events _ _ _ _ _ _ _ o hl
    · have h : o = mkEvent "no_speech" (some msgId) := by simpa using hr
      simp [h, mkEvent]
  · exact streamLoop_events _ _ _ _ _ _ _ o ho
  · exact streamLoop_events _ _ _ _ _ _ _ o ho

/-- C9 (counterexample): an inbound line that is not valid JSON
produces NO outbound message at all — there is no `INVALID_JSON`
error anywhere in the repo — and the loop then continues, still
answering the following `ping`. -/
theorem c9_counterexample :
    ipcStart (handleMessage (fun _ => true) (fun _ => 0) (.ok .base))
        ⟨PipelineState.init, .base⟩ [.invalidJson, .valid (.ping "7")] =
      (⟨PipelineState.init, .base⟩, [mkPong "7"]) := rfl

/-- C9 (amended): a malformed JSON line makes `receive_message` raise
`IpcProtocolError`; `start` catches it, logs, sends nothing, and
continues with the remaining lines exactly as if the bad line had not
been there. -/
theorem c9_invalid_json_dropped :
    (receiveMessage .invalidJson = .error "Invalid JSON") ∧
    (∀ (σ : Type) (step : σ → Inbound → σ × List Outbound) (st : σ)
        (rest : List InLine),
      ipcStart step st (.invalidJson :: rest) = ipcStart step st rest) :=
  ⟨rfl, fun _ _ _ _ => rfl⟩

/-- C1 (counterexample): a `process_audio_stream` request (here with
empty audio, id `r1`) is answered with NO `response`/`error` carrying
its id — the handler returns after sending only events, so the claimed
"exactly one" fails for this method. -/
theorem c1_counterexample :
    countIdRespErr (handleMessage (fun _ => true) (fun _ => 0) (.ok .base)
        ⟨PipelineState.init, .base⟩
        (.request "r1" "process_audio_stream" [] none)).2 "r1" = 0 := rfl

/-- C1 (amended): `process_audio`, `approve_upgrade` and
`stop_processing` requests each produce exactly one
`response`/`error` with the request id, but `process_audio_stream`
produces NONE (its handler sends only events and returns without a
response); event messages never carry a top-level correlation id. -/
theorem c1_request_correlation (cls : Nat → Bool) (nowf : Nat → Nat)
    (load : Except Unit Model) (st : AppState) (msgId : String)
    (audio : List Nat) (tm : Option Model) :
    countIdRespErr (handleMessage cls nowf load st
      (.request msgId "process_audio" audio tm)).2 msgId = 1 ∧
    countIdRespErr (handleMessage cls nowf load st
      (.request msgId "approve_upgrade" audio tm)).2 msgId = 1 ∧
    countIdRespErr (handleMessage cls nowf load st
      (.request msgId "stop_processing" audio tm)).2 msgId = 1 ∧
    countIdRespErr (handleMessage cls nowf load st
      (.request msgId "process_audio_stream" audio tm)).2 msgId = 0 ∧
    (∀ msg : Inbound, ∀ o ∈ (handleMessage cls nowf load st msg).2,
      o.type = "event" → o.id = none) := by
  refine ⟨?_, ?_, ?_, ?_, ?_⟩
  · simp only [handleMessage]
    rw [if_pos trivial]
    dsimp only
    unfold handleProcessAudio
    split_ifs <;>
      (dsimp only; rw [countIdRespErr_cons_resp, countIdRespErr_nil])
  · rcases tm with _ | t
    · show countIdRespErr [mkError msgId "MISSING_PARAMETER" true] msgId = 1
      rw [countIdRespErr_cons_err, countIdRespErr_nil]
    · rcases load with e | a
      · show countIdRespErr [mkError msgId "MODEL_LOAD_ERROR" false] msgId = 1
        rw [countIdRespErr_cons_err, countIdRespErr_nil]
      · show countIdRespErr [mkResponse msgId,
          mkEvent (if a = t then "upgrade_success" else "upgrade_fallback")
            none] msgId = 1
        rw [countIdRespErr_cons_resp, countIdRespErr_cons_event,
          countIdRespErr_nil]
  · show countIdRespErr [mkResponse msgId] msgId = 1
    rw [countIdRespErr_cons_resp, countIdRespErr_nil]
  · simp only [handleMessage]
    rw [if_pos trivial]
    try dsimp only
    exact countIdRespErr_eq_zero _ _ fun o ho =>
      (handleProcessAudioStream_events cls nowf st.pipe msgId audio o ho).1
  · intro msg o ho hev
    cases msg with
    | request mid method au t =>
      simp only [handleMessage] at ho
      split_ifs at ho with h1 h2 h3 h4
      · unfold handleProcessAudio at ho
        dsimp only at ho
        split_ifs at ho with h5 <;>
          (simp at ho
           rw [ho] at hev
           exact absurd (show ("response" : String) = "event" from hev)
             (by decide))
      · dsimp only at ho
        exact (handleProcessAudioStream_events cls nowf st.pipe mid au o ho).2
      · dsimp only at ho
        rcases t with _ | tt
        · unfold handleApproveUpgrade at ho
          dsimp only at ho
          simp at ho
          rw [ho] at hev
          exact absurd (show ("error" : String) = "event" from hev)
            (by decide)
        · rcases load with e | a
          · unfold handleApproveUpgrade at ho
            dsimp only at ho
            simp at ho
            rw [ho] at hev
            exact absurd (show ("error" : String) = "event" from hev)
              (by decide)
          · unfold handleApproveUpgrade at ho
            dsimp only at ho
            simp at ho
            rcases ho with ho | ho
            · rw [ho] at hev
              exact absurd (show ("response" : String) = "event" from hev)
                (by decide)
            · rw [ho]
              rfl
      · simp at ho
        rw [ho] at hev
        exact absurd (show ("response" : String) = "event" from hev)
          (by decide)
      · simp at ho
        rw [ho] at hev
        exact absurd (show ("error" : String) = "event" from hev)
          (by decide)
    | ping mid =>
      simp only [handleMessage] at ho
      simp at ho
      rw [ho] at hev
      exact absurd (show ("pong" : String) = "event" from hev) (by decide)
    | shutdown =>
      simp only [handleMessage] at ho
      simp at ho
      rw [ho]
    | unknownType mid =>
      simp only [handleMessage] at ho
      simp at ho
      rw [ho] at hev
      exact absurd (show ("error" : String) = "event" from hev) (by decide)

/-- C4 (counterexample): with `current_model = base` (and any
`initial_model ≼ base`, e.g. after a start in low-resource mode), an
`approve_upgrade` request for `small` makes `_handle_approve_upgrade`
load and install `small` — strictly larger than `base` — because the
handler never compares the requested target against `initial_model`. -/
theorem c4_counterexample :
    (handleApproveUpgrade .base "r1" (some .small) (.ok .small)).1 =
      .small ∧ modelLe .small .base = false := ⟨rfl, rfl⟩

/-- C4 (amended): the monitor itself respects the ceiling — every
`get_upgrade_target` result is `≼ initial_model`, and every
`get_downgrade_target` result is `≼ current_model` — but
`_handle_approve_upgrade` installs whatever model the engine loads,
with no `initial_model` check: on load success `current_model`
becomes the loaded size unconditionally, and only on failure or a
missing parameter is it left unchanged. -/
theorem c4_model_ceiling :
    (∀ ini cur t : Model,
      getUpgradeTarget (some ini) cur = some t → modelLe t ini = true) ∧
    (∀ cur t : Model,
      getDowngradeTarget cur = some t → modelLe t cur = true) ∧
    (∀ (cm : Model) (msgId : String) (target actual : Model),
      (handleApproveUpgrade cm msgId (some target) (.ok actual)).1 =
        actual) ∧
    (∀ (cm : Model) (msgId : String) (target : Option Model) (e : Unit),
      (handleApproveUpgrade cm msgId target (.error e)).1 = cm) := by
  refine ⟨?_, ?_, ?_, ?_⟩
  · intro ini cur t
    revert t
    cases ini <;> cases cur <;> decide
  · intro cur t
    revert t
    cases cur <;> decide
  · intro cm msgId target actual
    rfl
  · intro cm msgId target e
    rcases target with _ | t <;> rfl
